import Mathlib

/-!
Shallow embedding of the BiblioDrift backend (src/ai_service.py and src/app.py).

The optional external "mood analysis" dependency is modelled as an
`Option Analyzer`: `none` means the import failed (`MOOD_ANALYSIS_AVAILABLE =
False`), `some a` means it is available and `a` packages the three external
entry points.  Each external call may raise, modelled by `Except String`.
Request bodies are JSON dictionaries; the handlers only read the four fields
`description`, `title`, `author`, `query` via `data.get(key, '')`, so a request
is modelled as four optional strings.  Responses are a status code plus a JSON
body.
-/

/-- Minimal JSON value model for request/response bodies. -/
inductive Json where
  | str : String → Json
  | bool : Bool → Json
  | arr : List Json → Json
  | obj : List (String × Json) → Json

/-- Field lookup in a JSON object (`none` on non-objects or missing keys). -/
def Json.lookup : Json → String → Option Json
  | Json.obj fields, k => List.lookup k fields
  | _, _ => none

/-- An HTTP response: status code and JSON body (Flask `jsonify` + status). -/
structure HttpResponse where
  status : Nat
  body : Json

/-- The external analyzer (`mood_analysis.ai_service_enhanced`): three opaque
entry points, each of which may either return a value or raise. -/
structure Analyzer where
  generate_enhanced_book_note : String → String → String → Except String String
  get_mood_tags : String → String → Except String (List String)
  analyze_book_mood : String → String → Except String (Option Json)

/-- The JSON request body, restricted to the four fields the handlers read.
`none` models an absent key, so `data.get(key, '')` is `(· ).getD ""`. -/
structure ReqData where
  description : Option String
  title : Option String
  author : Option String
  query : Option String

/-- Python's substring test `needle in haystack` on strings. -/
def containsSub (haystack needle : String) : Bool :=
  haystack.data.tails.any (fun t => needle.data.isPrefixOf t)

/-- Python's `str.lower()` (ASCII range, as Lean's `Char.toLower`), written
over the character list so it evaluates by kernel reduction; extensionally
the same function as `String.toLower`. -/
def strLower (s : String) : String :=
  String.mk (s.data.map Char.toLower)

/-- The inline fallback block of `generate_book_note`
(src/ai_service.py lines 22-32): description-based heuristic, first match
wins. -/
def fallback_note (description : String) : String :=
  if description.length > 200 then
    "A deep, complex narrative that readers find emotionally resonant."
  else if description.length > 100 then
    "A compelling story with layers waiting to be discovered."
  else if containsSub (strLower description) "mystery" then
    "A mysterious tale that will keep you guessing."
  else if containsSub (strLower description) "romance" then
    "A heartwarming story perfect for cozy reading."
  else
    "A delightful read for any quiet moment."

/-- `generate_book_note(description, title="", author="")`
(src/ai_service.py lines 11-32).  The analyzer is consulted only when it is
available and both `title` and `author` are non-empty (Python truthiness of
strings); an analyzer exception falls through to the fallback block. -/
def generate_book_note (env : Option Analyzer) (description title author : String) :
    String :=
  match env with
  | some a =>
    if title ≠ "" ∧ author ≠ "" then
      match a.generate_enhanced_book_note description title author with
      | Except.ok s => s
      | Except.error _ => fallback_note description
    else
      fallback_note description
  | none => fallback_note description

/-- The `mood_queries` dict of `get_ai_recommendations`
(src/ai_service.py lines 38-46), as an association list in insertion order
(Python dicts iterate in insertion order). -/
def mood_queries : List (String × String) :=
  [("cozy", "comfort reads warm atmosphere"),
   ("dark", "psychological thriller mystery"),
   ("romantic", "romance love story"),
   ("mysterious", "mystery suspense thriller"),
   ("uplifting", "inspiring hopeful positive"),
   ("melancholy", "literary fiction emotional"),
   ("adventurous", "adventure fantasy epic")]

/-- The `for mood, book_query in mood_queries.items()` loop of
`get_ai_recommendations`: returns the formatted string for the first keyword
that is a substring of the (already lowered) query, else `none`. -/
def mood_loop : List (String × String) → String → Option String
  | [], _ => none
  | (mood, book_query) :: rest, query_lower =>
    if containsSub query_lower mood then
      some ("AI-optimized " ++ mood ++ " results: " ++ book_query)
    else
      mood_loop rest query_lower

/-- `get_ai_recommendations(query)` (src/ai_service.py lines 34-54). -/
def get_ai_recommendations (query : String) : String :=
  match mood_loop mood_queries (strLower query) with
  | some r => r
  | none => "AI-optimized results for: " ++ query

/-- `get_book_mood_tags_safe(title, author="")`
(src/ai_service.py lines 56-73): calls the analyzer when available, swallows
any exception, returns `[]` on absence or failure. -/
def get_book_mood_tags_safe (env : Option Analyzer) (title author : String) :
    List String :=
  match env with
  | some a =>
    match a.get_mood_tags title author with
    | Except.ok tags => tags
    | Except.error _ => []
  | none => []

/-- `handle_generate_note` (src/app.py lines 23-32): always 200 with
`{vibe}`. -/
def handle_generate_note (env : Option Analyzer) (req : ReqData) : HttpResponse :=
  ⟨200, Json.obj [("vibe", Json.str (generate_book_note env (req.description.getD "")
      (req.title.getD "") (req.author.getD "")))]⟩

/-- `handle_analyze_mood` (src/app.py lines 34-68): 503 when the analyzer is
absent; then 400 when `title` is empty; then 500 when `analyze_book_mood`
raises, 404 when it returns an empty (falsy) result, 200 with the analysis
otherwise. -/
def handle_analyze_mood (env : Option Analyzer) (req : ReqData) : HttpResponse :=
  match env with
  | none =>
    ⟨503, Json.obj [("success", Json.bool false),
      ("error", Json.str "Mood analysis not available - missing dependencies")]⟩
  | some a =>
    let title := req.title.getD ""
    let author := req.author.getD ""
    if title = "" then
      ⟨400, Json.obj [("error", Json.str "Title is required")]⟩
    else
      match a.analyze_book_mood title author with
      | Except.error e =>
        ⟨500, Json.obj [("success", Json.bool false), ("error", Json.str e)]⟩
      | Except.ok none =>
        ⟨404, Json.obj [("success", Json.bool false),
          ("error", Json.str "Could not analyze mood for this book")]⟩
      | Except.ok (some m) =>
        ⟨200, Json.obj [("success", Json.bool true), ("mood_analysis", m)]⟩

/-- `handle_mood_tags` (src/app.py lines 70-91): 400 when `title` is empty;
otherwise 200 with the (never-raising) safe tag lookup, so the handler's
`except` arm is unreachable. -/
def handle_mood_tags (env : Option Analyzer) (req : ReqData) : HttpResponse :=
  let title := req.title.getD ""
  let author := req.author.getD ""
  if title = "" then
    ⟨400, Json.obj [("error", Json.str "Title is required")]⟩
  else
    ⟨200, Json.obj [("success", Json.bool true),
      ("mood_tags", Json.arr ((get_book_mood_tags_safe env title author).map Json.str))]⟩

/-- `handle_mood_search` (src/app.py lines 93-114): 400 when `query` is empty;
otherwise 200 with the (never-raising) recommendation string and the query. -/
def handle_mood_search (req : ReqData) : HttpResponse :=
  let mood_query := req.query.getD ""
  if mood_query = "" then
    ⟨400, Json.obj [("error", Json.str "Query is required")]⟩
  else
    ⟨200, Json.obj [("success", Json.bool true),
      ("recommendations", Json.str (get_ai_recommendations mood_query)),
      ("query", Json.str mood_query)]⟩

/-- A concrete analyzer whose every entry point raises, used to instantiate
the failure-path theorems. -/
def failingAnalyzer : Analyzer :=
  ⟨fun _ _ _ => Except.error "boom",
   fun _ _ => Except.error "boom",
   fun _ _ => Except.error "boom"⟩

/-- A concrete analyzer whose every entry point succeeds with a fixed value,
used to instantiate the success-path theorems. -/
def okAnalyzer : Analyzer :=
  ⟨fun _ _ _ => Except.ok "enhanced note",
   fun _ _ => Except.ok ["dark", "tense"],
   fun _ _ => Except.ok (some (Json.str "moody"))⟩

/-- When the analyzer is absent, or `title` or `author` is empty (Python
falsy), `generate_book_note` is exactly its inline fallback block. -/
theorem generate_book_note_fallback (env : Option Analyzer) (d t a : String)
    (h : env = none ∨ t = "" ∨ a = "") :
    generate_book_note env d t a = fallback_note d := by
  rcases h with h | h | h
  · subst h; rfl
  · subst h
    cases env with
    | none => rfl
    | some an => simp [generate_book_note]
  · subst h
    cases env with
    | none => rfl
    | some an => simp [generate_book_note]

/-- Claim C1: with the analyzer unavailable or `title` or `author` empty,
`generate_book_note` returns the first matching phrase of the ordered local
heuristic (length > 200, then length > 100, then "mystery", then "romance",
then the default); in particular every description longer than 200 characters
yields the "deep, complex narrative" phrase. -/
theorem heuristic_note_ordered (env : Option Analyzer) (d t a : String)
    (h : env = none ∨ t = "" ∨ a = "") :
    generate_book_note env d t a =
      (if d.length > 200 then
        "A deep, complex narrative that readers find emotionally resonant."
      else if d.length > 100 then
        "A compelling story with layers waiting to be discovered."
      else if containsSub (strLower d) "mystery" then
        "A mysterious tale that will keep you guessing."
      else if containsSub (strLower d) "romance" then
        "A heartwarming story perfect for cozy reading."
      else
        "A delightful read for any quiet moment.") ∧
    (d.length > 200 →
      generate_book_note env d t a =
        "A deep, complex narrative that readers find emotionally resonant.") := by
  have hf := generate_book_note_fallback env d t a h
  refine ⟨hf, fun hlen => ?_⟩
  rw [hf, fallback_note, if_pos hlen]

set_option maxRecDepth 4000 in
/-- Witness for C1 at a concrete 201-character description. -/
theorem heuristic_note_ordered_witness :
    generate_book_note none (String.mk (List.replicate 201 'x')) "" "" =
      "A deep, complex narrative that readers find emotionally resonant." :=
  (heuristic_note_ordered none (String.mk (List.replicate 201 'x')) "" ""
    (Or.inl rfl)).2 (by decide)

/-- Claim C2: `get_ai_recommendations` lower-cases the query and scans the
seven mood keywords in declared order, first substring match wins; with no
match it echoes the original query; the two concrete examples from the spec
hold. -/
theorem mood_query_table (q : String) :
    get_ai_recommendations q =
      (if containsSub (strLower q) "cozy" then
        "AI-optimized cozy results: comfort reads warm atmosphere"
      else if containsSub (strLower q) "dark" then
        "AI-optimized dark results: psychological thriller mystery"
      else if containsSub (strLower q) "romantic" then
        "AI-optimized romantic results: romance love story"
      else if containsSub (strLower q) "mysterious" then
        "AI-optimized mysterious results: mystery suspense thriller"
      else if containsSub (strLower q) "uplifting" then
        "AI-optimized uplifting results: inspiring hopeful positive"
      else if containsSub (strLower q) "melancholy" then
        "AI-optimized melancholy results: literary fiction emotional"
      else if containsSub (strLower q) "adventurous" then
        "AI-optimized adventurous results: adventure fantasy epic"
      else "AI-optimized results for: " ++ q) ∧
    get_ai_recommendations "I want something dark and brooding" =
      "AI-optimized dark results: psychological thriller mystery" ∧
    get_ai_recommendations "tell me something" =
      "AI-optimized results for: tell me something" := by
  refine ⟨?_, by decide, by decide⟩
  simp only [get_ai_recommendations, mood_queries, mood_loop]
  split_ifs <;> rfl

/-- Claim C5: `generate_book_note` uses the analyzer only when it is
available and both `title` and `author` are non-empty; on analyzer success it
returns the analyzer's text, on analyzer failure it returns the local
fallback, and in every case the result is either the analyzer's text or the
fallback (the function never propagates an error). -/
theorem note_generator_analyzer_contract (env : Option Analyzer) (d t a : String) :
    (∀ an s, env = some an → t ≠ "" → a ≠ "" →
        an.generate_enhanced_book_note d t a = Except.ok s →
        generate_book_note env d t a = s) ∧
    (∀ an e, env = some an →
        an.generate_enhanced_book_note d t a = Except.error e →
        generate_book_note env d t a = fallback_note d) ∧
    ((env = none ∨ t = "" ∨ a = "") → generate_book_note env d t a = fallback_note d) ∧
    (generate_book_note env d t a = fallback_note d ∨
      ∃ an s, env = some an ∧ an.generate_enhanced_book_note d t a = Except.ok s ∧
        generate_book_note env d t a = s) := by
  refine ⟨?_, ?_, generate_book_note_fallback env d t a, ?_⟩
  · intro an s henv ht ha hok
    subst henv
    simp [generate_book_note, ht, ha, hok]
  · intro an e henv herr
    subst henv
    by_cases hta : t ≠ "" ∧ a ≠ ""
    · simp [generate_book_note, hta, herr]
    · simp [generate_book_note, hta]
  · cases env with
    | none => exact Or.inl rfl
    | some an =>
      by_cases hta : t ≠ "" ∧ a ≠ ""
      · cases hok : an.generate_enhanced_book_note d t a with
        | ok s =>
          exact Or.inr ⟨an, s, rfl, hok, by simp [generate_book_note, hta, hok]⟩
        | error e =>
          exact Or.inl (by simp [generate_book_note, hta, hok])
      · exact Or.inl (by simp [generate_book_note, hta])

/-- Witness for C5: a succeeding analyzer's text is returned verbatim. -/
theorem note_generator_analyzer_contract_witness :
    generate_book_note (some okAnalyzer) "desc" "Dune" "Herbert" = "enhanced note" :=
  (note_generator_analyzer_contract (some okAnalyzer) "desc" "Dune" "Herbert").1
    okAnalyzer "enhanced note" rfl (by decide) (by decide) rfl

/-- Claim C7: both service functions are deterministic — equal arguments (and
the same analyzer configuration) give equal results. -/
theorem services_deterministic (env env2 : Option Analyzer)
    (d d2 t t2 a a2 q q2 : String)
    (henv : env = env2) (hd : d = d2) (ht : t = t2) (ha : a = a2) (hq : q = q2) :
    generate_book_note env d t a = generate_book_note env2 d2 t2 a2 ∧
    get_ai_recommendations q = get_ai_recommendations q2 := by
  subst henv hd ht ha hq
  exact ⟨rfl, rfl⟩

/-- Witness for C7 at concrete arguments. -/
theorem services_deterministic_witness :
    generate_book_note none "d" "t" "a" = generate_book_note none "d" "t" "a" ∧
    get_ai_recommendations "cozy" = get_ai_recommendations "cozy" :=
  services_deterministic none none "d" "d" "t" "t" "a" "a" "cozy" "cozy"
    rfl rfl rfl rfl rfl

/-- Claim C3 counterexample: the 400 response for a missing `title` on
/api/v1/mood-tags is `{"error": "Title is required"}` with no `success`
field, so not every error response is the `{success: false, error}`
envelope. -/
theorem missing_title_no_success_field :
    (handle_mood_tags none ⟨none, none, none, none⟩).status = 400 ∧
    (handle_mood_tags none ⟨none, none, none, none⟩).body =
      Json.obj [("error", Json.str "Title is required")] ∧
    (handle_mood_tags none ⟨none, none, none, none⟩).body.lookup "success" = none :=
  ⟨rfl, rfl, rfl⟩

/-- Claim C3 amended: every handler error response carries an `error`
message; the 404/500/503 responses carry `success: false`, but the 400
missing-required-field responses carry no `success` field at all. -/
theorem error_envelope_amended (env : Option Analyzer) (req : ReqData)
    (r : HttpResponse)
    (hr : r = handle_mood_tags env req ∨ r = handle_analyze_mood env req ∨
      r = handle_mood_search req)
    (herr : 400 ≤ r.status) :
    (∃ m, r.body.lookup "error" = some (Json.str m)) ∧
    (r.status = 400 → r.body.lookup "success" = none) ∧
    (r.status ≠ 400 → r.body.lookup "success" = some (Json.bool false)) := by
  rcases hr with hr | hr | hr
  · subst hr
    by_cases ht : req.title.getD "" = ""
    · simp only [handle_mood_tags, if_pos ht]
      exact ⟨⟨"Title is required", rfl⟩, fun _ => rfl, fun hne => absurd rfl hne⟩
    · simp only [handle_mood_tags, if_neg ht] at herr
      omega
  · subst hr
    cases env with
    | none =>
      refine ⟨⟨"Mood analysis not available - missing dependencies", rfl⟩,
        fun h400 => ?_, fun _ => rfl⟩
      have h503 : (handle_analyze_mood none req).status = 503 := rfl
      omega
    | some a =>
      by_cases ht : req.title.getD "" = ""
      · simp only [handle_analyze_mood, if_pos ht]
        exact ⟨⟨"Title is required", rfl⟩, fun _ => rfl, fun hne => absurd rfl hne⟩
      · cases hres : a.analyze_book_mood (req.title.getD "") (req.author.getD "") with
        | error e =>
          simp only [handle_analyze_mood, if_neg ht, hres]
          exact ⟨⟨e, rfl⟩, fun h400 => absurd h400 (by decide), fun _ => rfl⟩
        | ok o =>
          cases o with
          | none =>
            simp only [handle_analyze_mood, if_neg ht, hres]
            exact ⟨⟨"Could not analyze mood for this book", rfl⟩,
              fun h400 => absurd h400 (by decide), fun _ => rfl⟩
          | some m =>
            simp only [handle_analyze_mood, if_neg ht, hres] at herr
            omega
  · subst hr
    by_cases hq : req.query.getD "" = ""
    · simp only [handle_mood_search, if_pos hq]
      exact ⟨⟨"Query is required", rfl⟩, fun _ => rfl, fun hne => absurd rfl hne⟩
    · simp only [handle_mood_search, if_neg hq] at herr
      omega

/-- Witness for the amended C3 at the missing-title 400 response. -/
theorem error_envelope_amended_witness :
    (∃ m, (handle_mood_tags none ⟨none, none, none, none⟩).body.lookup "error" =
      some (Json.str m)) ∧
    ((handle_mood_tags none ⟨none, none, none, none⟩).status = 400 →
      (handle_mood_tags none ⟨none, none, none, none⟩).body.lookup "success" = none) ∧
    ((handle_mood_tags none ⟨none, none, none, none⟩).status ≠ 400 →
      (handle_mood_tags none ⟨none, none, none, none⟩).body.lookup "success" =
        some (Json.bool false)) :=
  error_envelope_amended none ⟨none, none, none, none⟩
    (handle_mood_tags none ⟨none, none, none, none⟩) (Or.inl rfl) (by decide)

/-- Claim C4: the safe tag lookup returns the analyzer's tags on success and
`[]` on absence or on any analyzer exception, so a mood-tags request with a
non-empty title still gets `200 {success: true, mood_tags: []}` when the
analyzer raises. -/
theorem mood_tags_safe_spec :
    (∀ (a : Analyzer) (title author : String) (tags : List String),
        a.get_mood_tags title author = Except.ok tags →
        get_book_mood_tags_safe (some a) title author = tags) ∧
    (∀ (a : Analyzer) (title author e : String),
        a.get_mood_tags title author = Except.error e →
        get_book_mood_tags_safe (some a) title author = []) ∧
    (∀ title author : String, get_book_mood_tags_safe none title author = []) ∧
    (∀ (a : Analyzer) (req : ReqData) (e : String),
        req.title.getD "" ≠ "" →
        a.get_mood_tags (req.title.getD "") (req.author.getD "") = Except.error e →
        handle_mood_tags (some a) req =
          ⟨200, Json.obj [("success", Json.bool true), ("mood_tags", Json.arr [])]⟩) := by
  refine ⟨?_, ?_, fun _ _ => rfl, ?_⟩
  · intro a title author tags h
    simp [get_book_mood_tags_safe, h]
  · intro a title author e h
    simp [get_book_mood_tags_safe, h]
  · intro a req e ht h
    simp [handle_mood_tags, ht, get_book_mood_tags_safe, h]

/-- Witness for C4: the everywhere-raising analyzer still yields a 200 with
an empty tag list. -/
theorem mood_tags_safe_spec_witness :
    handle_mood_tags (some failingAnalyzer) ⟨none, some "Dune", none, none⟩ =
      ⟨200, Json.obj [("success", Json.bool true), ("mood_tags", Json.arr [])]⟩ :=
  mood_tags_safe_spec.2.2.2 failingAnalyzer ⟨none, some "Dune", none, none⟩ "boom"
    (by decide) rfl

/-- Claim C6: /api/v1/analyze-mood returns 503 when the analyzer is absent,
400 when `title` is empty, 500 when the analyzer raises, 404 when it returns
an empty (falsy) analysis, and otherwise 200 with the analysis. -/
theorem analyze_mood_status_spec (env : Option Analyzer) (req : ReqData) :
    (env = none → handle_analyze_mood env req =
      ⟨503, Json.obj [("success", Json.bool false),
        ("error", Json.str "Mood analysis not available - missing dependencies")]⟩) ∧
    (∀ a : Analyzer, env = some a → req.title.getD "" = "" →
      handle_analyze_mood env req =
        ⟨400, Json.obj [("error", Json.str "Title is required")]⟩) ∧
    (∀ (a : Analyzer) (e : String), env = some a → req.title.getD "" ≠ "" →
      a.analyze_book_mood (req.title.getD "") (req.author.getD "") = Except.error e →
      handle_analyze_mood env req =
        ⟨500, Json.obj [("success", Json.bool false), ("error", Json.str e)]⟩) ∧
    (∀ a : Analyzer, env = some a → req.title.getD "" ≠ "" →
      a.analyze_book_mood (req.title.getD "") (req.author.getD "") = Except.ok none →
      handle_analyze_mood env req =
        ⟨404, Json.obj [("success", Json.bool false),
          ("error", Json.str "Could not analyze mood for this book")]⟩) ∧
    (∀ (a : Analyzer) (m : Json), env = some a → req.title.getD "" ≠ "" →
      a.analyze_book_mood (req.title.getD "") (req.author.getD "") = Except.ok (some m) →
      handle_analyze_mood env req =
        ⟨200, Json.obj [("success", Json.bool true), ("mood_analysis", m)]⟩) := by
  refine ⟨fun h => by subst h; rfl, ?_, ?_, ?_, ?_⟩
  · intro a henv ht
    subst henv
    simp [handle_analyze_mood, ht]
  · intro a e henv ht hres
    subst henv
    simp [handle_analyze_mood, ht, hres]
  · intro a henv ht hres
    subst henv
    simp [handle_analyze_mood, ht, hres]
  · intro a m henv ht hres
    subst henv
    simp [handle_analyze_mood, ht, hres]

/-- Witness for C6 at the analyzer-absent 503 response. -/
theorem analyze_mood_status_spec_witness :
    handle_analyze_mood none ⟨none, some "Dune", none, none⟩ =
      ⟨503, Json.obj [("success", Json.bool false),
        ("error", Json.str "Mood analysis not available - missing dependencies")]⟩ :=
  (analyze_mood_status_spec none ⟨none, some "Dune", none, none⟩).1 rfl

/-- Claim C8: on /api/v1/analyze-mood the availability check runs before the
field check: with the analyzer absent every request, title present or not,
gets the 503 envelope, and a 400 status implies the analyzer was available. -/
theorem analyze_mood_availability_first (req : ReqData) :
    handle_analyze_mood none req =
      ⟨503, Json.obj [("success", Json.bool false),
        ("error", Json.str "Mood analysis not available - missing dependencies")]⟩ ∧
    (∀ env : Option Analyzer, (handle_analyze_mood env req).status = 400 →
      ∃ a : Analyzer, env = some a) := by
  refine ⟨rfl, fun env h => ?_⟩
  cases env with
  | none =>
    have h503 : (handle_analyze_mood none req).status = 503 := rfl
    omega
  | some a => exact ⟨a, rfl⟩

/-- Witness for C8: a 400 from analyze-mood implies an available analyzer. -/
theorem analyze_mood_availability_first_witness :
    ∃ a : Analyzer, (some failingAnalyzer : Option Analyzer) = some a :=
  (analyze_mood_availability_first ⟨none, none, none, none⟩).2
    (some failingAnalyzer) rfl

/-- Claim C9: /api/v1/mood-search answers 400 `{"error": "Query is required"}`
when `query` is absent or empty, and invokes `get_ai_recommendations` only on
the non-empty query otherwise. -/
theorem mood_search_requires_query (req : ReqData) :
    ((req.query = none ∨ req.query = some "") →
      handle_mood_search req =
        ⟨400, Json.obj [("error", Json.str "Query is required")]⟩) ∧
    (∀ q : String, req.query = some q → q ≠ "" →
      handle_mood_search req =
        ⟨200, Json.obj [("success", Json.bool true),
          ("recommendations", Json.str (get_ai_recommendations q)),
          ("query", Json.str q)]⟩) := by
  constructor
  · rintro (h | h) <;> simp [handle_mood_search, h]
  · intro q hq hne
    simp [handle_mood_search, hq, hne]

/-- Witness for C9 at an absent query field. -/
theorem mood_search_requires_query_witness :
    handle_mood_search ⟨none, none, none, none⟩ =
      ⟨400, Json.obj [("error", Json.str "Query is required")]⟩ :=
  (mood_search_requires_query ⟨none, none, none, none⟩).1 (Or.inl rfl)

/-- Any string the keyword loop returns begins with "AI-optimized ". -/
theorem mood_loop_optimized (l : List (String × String)) :
    ∀ ql r : String, mood_loop l ql = some r →
      ∃ rest, r = "AI-optimized " ++ rest := by
  induction l with
  | nil => intro ql r h; exact absurd h (by simp [mood_loop])
  | cons p tl ih =>
    intro ql r h
    obtain ⟨mood, bq⟩ := p
    rw [mood_loop] at h
    by_cases hc : containsSub ql mood = true
    · rw [if_pos hc] at h
      refine ⟨mood ++ (" results: " ++ bq), ?_⟩
      rw [← Option.some_inj.mp h, String.append_assoc, String.append_assoc]
    · rw [if_neg hc] at h
      exact ih ql r h

/-- Claim C10: every result of `get_ai_recommendations` begins with the
prefix "AI-optimized ", on the keyword branch and on the fallback branch
alike. -/
theorem recommendations_have_ai_marker (q : String) :
    ∃ rest, get_ai_recommendations q = "AI-optimized " ++ rest := by
  unfold get_ai_recommendations
  cases h : mood_loop mood_queries (strLower q) with
  | none =>
    refine ⟨"results for: " ++ q, ?_⟩
    show "AI-optimized results for: " ++ q = "AI-optimized " ++ ("results for: " ++ q)
    rw [← String.append_assoc]
    exact congrArg (fun s => s ++ q) (by decide)
  | some r =>
    obtain ⟨rest, hrest⟩ := mood_loop_optimized mood_queries (strLower q) r h
    exact ⟨rest, hrest⟩
